import Mathlib

/-!
Verification of `src/services/openAITextService.ts` (and its caller
`generateVideoScriptsForComicStrip` in the gemini service file) from the
image-studio repository.

The TypeScript service is embedded shallowly:

* `JSON.parse` is modelled by an executable recursive-descent parser
  `parseJsonTop : String → Option Json` (fuel-based, total).  Fractional or
  exponent number literals and `\u` string escapes are not modelled (the
  parser rejects them); no claim depends on them.
* The ambient build-time environment (`import.meta.env.*`) becomes an explicit
  `Config` record passed to every function.
* The single `fetch` performed by `callOpenAIChat` is abstracted by a
  `ChatOutcome` oracle argument describing what the provider did: a thrown
  transport error, or an HTTP response with a status, an error-body reading
  and a deserialized completion body.  Passing the oracle explicitly lets
  "no network request is attempted" be stated as independence from it.
* Every `throw new Error(msg)` site becomes an `ApiError` constructor; the
  constructor identifies the throw-site family (the spec's error taxonomy)
  and carries the variable part of the message.  `ApiError.message`
  reconstructs the exact JavaScript `Error` message string.
* The builders' inline `try { ... } catch` blocks are modelled by a
  `tryBlock` function returning `Except String α` (the thrown message) and a
  `catch` function that mirrors the source's `error.message === 'invalid'`
  test.
-/

/-- JSON values as produced by `JSON.parse`.  Numbers are restricted to
integers (no claim involves fractional literals). -/
inductive Json where
  | null
  | bool (b : Bool)
  | num (n : Int)
  | str (s : String)
  | arr (elems : List Json)
  | obj (fields : List (String × Json))

/-- JavaScript `trim` whitespace (the ASCII cases plus NBSP; sufficient for
every string this service handles). -/
def isJsWs (c : Char) : Bool :=
  c = ' ' || c = '\t' || c = '\n' || c = '\r' || c = '\u000b' || c = '\u000c' || c = ' '

/-- Model of JavaScript `String.prototype.trim`. -/
def jsTrim (s : String) : String :=
  String.mk (((s.data.dropWhile isJsWs).reverse.dropWhile isJsWs).reverse)

/-- Model of JavaScript `Array.prototype.join('')`. -/
def concatAll : List String → String
  | [] => ""
  | s :: rest => s ++ concatAll rest

def skipWs (cs : List Char) : List Char := cs.dropWhile isJsWs

def isDigitChar (c : Char) : Bool := '0' ≤ c && c ≤ '9'

def digitsToNat (ds : List Char) : Nat :=
  ds.foldl (fun acc c => acc * 10 + (c.toNat - 48)) 0

/-- JSON string escapes (`\u` hex escapes are not modelled). -/
def escChar (c : Char) : Option Char :=
  if c = '"' then some '"'
  else if c = '\\' then some '\\'
  else if c = '/' then some '/'
  else if c = 'n' then some '\n'
  else if c = 't' then some '\t'
  else if c = 'r' then some '\r'
  else if c = 'b' then some '\u0008'
  else if c = 'f' then some '\u000c'
  else none

/-- Parse the remainder of a JSON string literal (after the opening quote). -/
def parseStrChars : Nat → List Char → List Char → Option (String × List Char)
  | 0, _, _ => none
  | _ + 1, [], _ => none
  | fuel + 1, c :: rest, acc =>
    if c = '"' then some (String.mk acc.reverse, rest)
    else if c = '\\' then
      match rest with
      | [] => none
      | e :: rest' =>
        match escChar e with
        | some ec => parseStrChars fuel rest' (ec :: acc)
        | none => none
    else parseStrChars fuel rest (c :: acc)

def parseNumber (cs : List Char) : Option (Json × List Char) :=
  match cs with
  | '-' :: rest =>
    let ds := rest.takeWhile isDigitChar
    if ds.isEmpty then none
    else some (Json.num (-(Int.ofNat (digitsToNat ds))), rest.dropWhile isDigitChar)
  | _ =>
    let ds := cs.takeWhile isDigitChar
    if ds.isEmpty then none
    else some (Json.num (Int.ofNat (digitsToNat ds)), cs.dropWhile isDigitChar)

/-- What `parseCore` is currently parsing: a value, the elements of an array
(with the elements accumulated so far), or the members of an object. -/
inductive PMode where
  | value
  | elems (acc : List Json)
  | members (acc : List (String × Json))

/-- Recursive-descent JSON parser, fuel-structural in its first argument so
that concrete inputs evaluate by `rfl`/`decide`.  `cs` is the unconsumed
input. -/
def parseCore : Nat → PMode → List Char → Option (Json × List Char)
  | 0, _, _ => none
  | fuel + 1, PMode.value, cs =>
    match skipWs cs with
    | [] => none
    | c :: rest =>
      if c = '{' then
        match skipWs rest with
        | '}' :: rest' => some (Json.obj [], rest')
        | _ => parseCore fuel (PMode.members []) rest
      else if c = '[' then
        match skipWs rest with
        | ']' :: rest' => some (Json.arr [], rest')
        | _ => parseCore fuel (PMode.elems []) rest
      else if c = '"' then
        match parseStrChars (fuel + 1) rest [] with
        | some (s, rest') => some (Json.str s, rest')
        | none => none
      else if c = 't' then
        match rest with
        | 'r' :: 'u' :: 'e' :: r => some (Json.bool true, r)
        | _ => none
      else if c = 'f' then
        match rest with
        | 'a' :: 'l' :: 's' :: 'e' :: r => some (Json.bool false, r)
        | _ => none
      else if c = 'n' then
        match rest with
        | 'u' :: 'l' :: 'l' :: r => some (Json.null, r)
        | _ => none
      else if c = '-' || isDigitChar c then parseNumber (c :: rest)
      else none
  | fuel + 1, PMode.elems acc, cs =>
    match parseCore fuel PMode.value cs with
    | none => none
    | some (v, rest) =>
      match skipWs rest with
      | ',' :: rest' => parseCore fuel (PMode.elems (v :: acc)) rest'
      | ']' :: rest' => some (Json.arr (v :: acc).reverse, rest')
      | _ => none
  | fuel + 1, PMode.members acc, cs =>
    match skipWs cs with
    | '"' :: rest =>
      match parseStrChars (fuel + 1) rest [] with
      | none => none
      | some (k, rest') =>
        match skipWs rest' with
        | ':' :: rest2 =>
          match parseCore fuel PMode.value rest2 with
          | none => none
          | some (v, rest3) =>
            match skipWs rest3 with
            | ',' :: rest4 => parseCore fuel (PMode.members ((k, v) :: acc)) rest4
            | '}' :: rest4 => some (Json.obj ((k, v) :: acc).reverse, rest4)
            | _ => none
        | _ => none
    | _ => none

def parseValue (fuel : Nat) (cs : List Char) : Option (Json × List Char) :=
  parseCore fuel PMode.value cs

/-- Model of `JSON.parse`: `none` means the parse threw a `SyntaxError`. -/
def parseJsonTop (s : String) : Option Json :=
  match parseValue (2 * s.length + 2) s.data with
  | some (j, rest) => if skipWs rest = [] then some j else none
  | none => none

/-- JavaScript property access `v?.key` followed by use of the result:
defined only on objects, last duplicate key wins (as in `JSON.parse`). -/
def jsGet : Json → String → Option Json
  | Json.obj fields, k =>
    fields.foldl (fun acc kv => if kv.fst = k then some kv.snd else acc) none
  | _, _ => none

/-! ## Message content model and `extractMessageContent` -/

/-- `ChatMessageContentPart` from the source (`image_url` is kept for
fidelity; extraction never reads it). -/
structure ChatMessageContentPart where
  type : String
  text : Option String
  image_url : Option String

/-- `string | ChatMessageContentPart[]` content of a message. -/
inductive MessageContent where
  | str (s : String)
  | parts (ps : List ChatMessageContentPart)

structure ChoiceMessage where
  content : Option MessageContent

structure ChatCompletionChoice where
  message : Option ChoiceMessage

structure ChatCompletionResponse where
  choices : Option (List ChatCompletionChoice)

/-- `completion.choices?.[0]?.message?.content`. -/
def firstChoiceContent (r : ChatCompletionResponse) : Option MessageContent :=
  match r.choices with
  | none => none
  | some cs =>
    match cs.head? with
    | none => none
    | some c =>
      match c.message with
      | none => none
      | some m => m.content

def isTextPart (p : ChatMessageContentPart) : Bool :=
  p.type == "text" || p.type == "input_text"

/-- `extractMessageContent` from the source.  The JavaScript falsiness test
`!content` returns `''` for `undefined` and for the empty string; for the
empty string `trim` yields the same `''`, so matching on the option is
faithful. -/
def extractMessageContent : Option MessageContent → String
  | none => ""
  | some (MessageContent.str s) => jsTrim s
  | some (MessageContent.parts ps) =>
      jsTrim (concatAll (ps.map (fun p => if isTextPart p then p.text.getD "" else "")))

/-! ## Configuration -/

/-- The three `import.meta.env` entries read at module load; `none` models an
unset variable. -/
structure Config where
  baseUrlRaw : Option String
  apiKeyRaw : Option String
  textModelRaw : Option String

/-- `.replace(/\/$/, '')`: removes exactly one trailing slash. -/
def stripOneTrailingSlash (s : String) : String :=
  match s.data.getLast? with
  | some '/' => String.mk s.data.dropLast
  | _ => s

/-- `OPENAI_COMPATIBLE_BASE_URL = (env.VITE_OPENAI_COMPATIBLE_BASE_URL || '').replace(/\/$/, '')`. -/
def openaiBaseUrl (cfg : Config) : String :=
  stripOneTrailingSlash (cfg.baseUrlRaw.getD "")

/-- `OPENAI_COMPATIBLE_API_KEY = env.VITE_OPENAI_COMPATIBLE_API_KEY || ''`. -/
def openaiApiKey (cfg : Config) : String :=
  cfg.apiKeyRaw.getD ""

/-- `OPENAI_COMPATIBLE_TEXT_MODEL = env.VITE_OPENAI_COMPATIBLE_TEXT_MODEL || 'gpt-4o-mini'`
(the JavaScript `||` also replaces an empty string by the default). -/
def openaiTextModel (cfg : Config) : String :=
  let v := cfg.textModelRaw.getD ""
  if v = "" then "gpt-4o-mini" else v

/-! ## Error taxonomy

Each constructor corresponds to one family of `throw new Error(...)` sites in
the source; the payload is the variable part of the message.
`ApiError.message` rebuilds the exact JavaScript `Error` message. -/

inductive ApiError where
  /-- `ensureOpenAIConfig` throws (the spec's `ConfigurationError`). -/
  | config (msg : String)
  /-- HTTP 401/403 (the spec's `ProviderError`, authentication sub-kind). -/
  | authFailed (msg : String)
  /-- other non-success HTTP status (the spec's generic `ProviderError`). -/
  | callFailed (msg : String)
  /-- an `Error` thrown by `fetch`/`response.json()` is rethrown unchanged. -/
  | transport (msg : String)
  /-- a non-`Error` value was thrown: wrapped as the unknown-error message. -/
  | unknown
  /-- a builder's `if (!content) throw ...` (the spec's `EmptyContentError`). -/
  | emptyContent (msg : String)
  /-- a builder's catch block re-mapping the `'invalid'` sentinel
  (the spec's `FormatError`, shape-violation case). -/
  | invalidFormat (msg : String)
  /-- a builder's catch block for every other thrown error
  (the spec's `FormatError`, parse-failure case). -/
  | parseFailed (msg : String)
deriving DecidableEq, Repr

/-- The exact message of the JavaScript `Error` surfaced to the caller. -/
def ApiError.message : ApiError → String
  | ApiError.config m => m
  | ApiError.authFailed m => "OpenAI兼容API鉴权失败：" ++ m
  | ApiError.callFailed m => "调用OpenAI兼容API失败：" ++ m
  | ApiError.transport m => m
  | ApiError.unknown => "调用OpenAI兼容API时发生未知错误。"
  | ApiError.emptyContent m => m
  | ApiError.invalidFormat m => m
  | ApiError.parseFailed m => m

def baseUrlMissingMsg : String :=
  "OpenAI兼容API地址未配置。请在环境变量中设置 VITE_OPENAI_COMPATIBLE_BASE_URL。"

def apiKeyMissingMsg : String :=
  "OpenAI兼容API密钥未配置。请在环境变量中设置 VITE_OPENAI_COMPATIBLE_API_KEY。"

/-- `ensureOpenAIConfig` from the source. -/
def ensureOpenAIConfig (cfg : Config) : Except ApiError Unit :=
  if openaiBaseUrl cfg = "" then Except.error (ApiError.config baseUrlMissingMsg)
  else if openaiApiKey cfg = "" then Except.error (ApiError.config apiKeyMissingMsg)
  else Except.ok ()

/-! ## The chat call -/

/-- How the non-success response body reads in `callOpenAIChat`'s error
path: either `response.json()` threw (and `response.text()` was read), or it
parsed and `errorData?.error?.message` was (or was not) a string. -/
inductive ErrBody where
  | unparsable (text : String)
  | parsed (errMessage : Option String)

/-- What the single `fetch` in `callOpenAIChat` did.  `http` carries the
status together with precomputed readings of the body for the error path
(`errBody`) and the success path (`completion`); each reading is consumed in
exactly one branch, mirroring the source. -/
inductive ChatOutcome where
  /-- `fetch`/`response.json()` rejected with an `Error` (rethrown as-is). -/
  | thrownError (msg : String)
  /-- a non-`Error` value was thrown. -/
  | thrownNonError
  | http (status : Nat) (errBody : ErrBody) (completion : ChatCompletionResponse)

/-- `response.ok`: status in the 200–299 range. -/
def respOk (status : Nat) : Bool := Nat.ble 200 status && Nat.ble status 299

/-- The `message` local computed in `callOpenAIChat`'s non-success branch. -/
def httpErrorMessage (status : Nat) (b : ErrBody) : String :=
  match b with
  | ErrBody.parsed (some m) => m
  | ErrBody.parsed none => "HTTP " ++ toString status
  | ErrBody.unparsable t => if t = "" then "HTTP " ++ toString status else t

/-- `callOpenAIChat` from the source.  The request body only influences the
provider, which is abstracted by `net`, so it is not a parameter. -/
def callOpenAIChat (cfg : Config) (net : ChatOutcome) : Except ApiError ChatCompletionResponse :=
  match ensureOpenAIConfig cfg with
  | Except.error e => Except.error e
  | Except.ok () =>
    match net with
    | ChatOutcome.thrownError msg => Except.error (ApiError.transport msg)
    | ChatOutcome.thrownNonError => Except.error ApiError.unknown
    | ChatOutcome.http status errBody completion =>
      if respOk status then Except.ok completion
      else
        let message := httpErrorMessage status errBody
        if status = 401 ∨ status = 403 then Except.error (ApiError.authFailed message)
        else Except.error (ApiError.callFailed message)

/-! ## Builder try/catch blocks

Each builder wraps `JSON.parse` plus its shape checks in
`try { ... } catch (error)`.  The try-block is modelled as
`Except String α` whose error is the thrown `Error`'s message; the catch
block compares that message with the `'invalid'` sentinel. -/

/-- Stand-in for the engine-specific `SyntaxError` message thrown by
`JSON.parse`; the catch blocks only compare it against `"invalid"`, and a
`SyntaxError` message is never that. -/
def jsonSyntaxErrorMessage : String := "Unexpected token in JSON"

/-- The catch block shared (textually, per builder) by all builders:
`if (error instanceof Error && error.message === 'invalid')` re-throw the
builder's invalid-format message, otherwise its parse-failure message. -/
def builderCatch {α : Type} (invalidMsg failMsg : String) :
    Except String α → Except ApiError α
  | Except.ok v => Except.ok v
  | Except.error m =>
    if m = "invalid" then Except.error (ApiError.invalidFormat invalidMsg)
    else Except.error (ApiError.parseFailed failMsg)

/-- Try-block of `generateComicPanelPrompts`: parse, require `panels` to be
an array, require its length to equal `numberOfImages`. -/
def comicTryBlock (content : String) (numberOfImages : Nat) : Except String (List Json) :=
  match parseJsonTop content with
  | none => Except.error jsonSyntaxErrorMessage
  | some parsed =>
    match jsGet parsed "panels" with
    | some (Json.arr panels) =>
      if panels.length ≠ numberOfImages then
        Except.error ("OpenAI兼容API返回的分镜数量与预期不符（期望" ++ toString numberOfImages ++ "个）。")
      else Except.ok panels
    | _ => Except.error "invalid"

/-- Try-block of `generateVideoStoryboard` (field `segments`). -/
def storyboardTryBlock (content : String) (numImages : Nat) : Except String (List Json) :=
  match parseJsonTop content with
  | none => Except.error jsonSyntaxErrorMessage
  | some parsed =>
    match jsGet parsed "segments" with
    | some (Json.arr segments) =>
      if segments.length ≠ numImages then
        Except.error ("OpenAI兼容API返回的镜头脚本数量与预期不符（期望" ++ toString numImages ++ "个）。")
      else Except.ok segments
    | _ => Except.error "invalid"

/-- Try-block of `generateWikiCardPrompts` (field `cards`). -/
def wikiTryBlock (content : String) (numberOfCards : Nat) : Except String (List Json) :=
  match parseJsonTop content with
  | none => Except.error jsonSyntaxErrorMessage
  | some parsed =>
    match jsGet parsed "cards" with
    | some (Json.arr cards) =>
      if cards.length ≠ numberOfCards then
        Except.error ("OpenAI兼容API返回的卡片数量与预期不符（期望" ++ toString numberOfCards ++ "个）。")
      else Except.ok cards
    | _ => Except.error "invalid"

/-- Try-block of `generateTextToImagePrompt`: `positivePrompt` must be a
string with non-empty trim; `negativePrompt` is kept only when it is a
string with non-empty trim. -/
def textToImageTryBlock (content : String) : Except String (String × Option String) :=
  match parseJsonTop content with
  | none => Except.error jsonSyntaxErrorMessage
  | some parsed =>
    match jsGet parsed "positivePrompt" with
    | some (Json.str p) =>
      if jsTrim p = "" then Except.error "invalid"
      else
        let neg :=
          match jsGet parsed "negativePrompt" with
          | some (Json.str q) => if jsTrim q = "" then none else some (jsTrim q)
          | _ => none
        Except.ok (jsTrim p, neg)
    | _ => Except.error "invalid"

/-- Try-block shared (textually identical in the source) by the five
single-prompt builders: `prompt` must be a string with non-empty trim. -/
def promptTryBlock (content : String) : Except String String :=
  match parseJsonTop content with
  | none => Except.error jsonSyntaxErrorMessage
  | some parsed =>
    match jsGet parsed "prompt" with
    | some (Json.str p) =>
      if jsTrim p = "" then Except.error "invalid" else Except.ok (jsTrim p)
    | _ => Except.error "invalid"

/-! ## The task-specific builders

The prompt texts and the `response_format` schema in each builder's request
body only influence the provider, which the `net` oracle abstracts, so the
body construction is not repeated here; the task parameters are kept for
signature fidelity. -/

def generateComicPanelPrompts (cfg : Config) (story stylePrompt : String)
    (numberOfImages : Nat) (net : ChatOutcome) : Except ApiError (List Json) :=
  match callOpenAIChat cfg net with
  | Except.error e => Except.error e
  | Except.ok completion =>
    let content := extractMessageContent (firstChoiceContent completion)
    if content = "" then Except.error (ApiError.emptyContent "OpenAI兼容API未返回任何连环画分镜描述。")
    else builderCatch "OpenAI兼容API返回了无效的连环画分镜格式。"
      "解析OpenAI兼容API返回的连环画分镜时失败。" (comicTryBlock content numberOfImages)

/-- `GeneratedImage` from `types.ts`; only the `src` field is read by this
service (as an outbound image part). -/
structure GeneratedImage where
  src : String

def generateVideoStoryboard (cfg : Config) (story : String)
    (images : List GeneratedImage) (net : ChatOutcome) : Except ApiError (List Json) :=
  if images.length = 0 then Except.ok []
  else
    match callOpenAIChat cfg net with
    | Except.error e => Except.error e
    | Except.ok completion =>
      let content := extractMessageContent (firstChoiceContent completion)
      if content = "" then Except.error (ApiError.emptyContent "OpenAI兼容API未返回任何镜头脚本。")
      else builderCatch "OpenAI兼容API返回了无效的镜头脚本格式。"
        "解析OpenAI兼容API返回的镜头脚本时失败。" (storyboardTryBlock content images.length)

def generateWikiCardPrompts (cfg : Config) (topic stylePrompt : String)
    (numberOfCards : Nat) (net : ChatOutcome) : Except ApiError (List Json) :=
  match callOpenAIChat cfg net with
  | Except.error e => Except.error e
  | Except.ok completion =>
    let content := extractMessageContent (firstChoiceContent completion)
    if content = "" then Except.error (ApiError.emptyContent "OpenAI兼容API未返回任何图解卡片描述。")
    else builderCatch "OpenAI兼容API返回了无效的图解卡片格式。"
      "解析OpenAI兼容API返回的图解卡片时失败。" (wikiTryBlock content numberOfCards)

def generateTextToImagePrompt (cfg : Config) (basePrompt : String)
    (selectedKeywords : List String) (aspectRatio : String) (numberOfImages : Nat)
    (negativePrompt : Option String) (net : ChatOutcome) :
    Except ApiError (String × Option String) :=
  match callOpenAIChat cfg net with
  | Except.error e => Except.error e
  | Except.ok completion =>
    let content := extractMessageContent (firstChoiceContent completion)
    if content = "" then Except.error (ApiError.emptyContent "OpenAI兼容API未返回任何文生图提示词。")
    else builderCatch "OpenAI兼容API返回了无效的文生图提示词格式。"
      "解析OpenAI兼容API返回的文生图提示词时失败。" (textToImageTryBlock content)

def generateImageEditPrompt (cfg : Config) (prompt : String) (net : ChatOutcome) :
    Except ApiError String :=
  match callOpenAIChat cfg net with
  | Except.error e => Except.error e
  | Except.ok completion =>
    let content := extractMessageContent (firstChoiceContent completion)
    if content = "" then Except.error (ApiError.emptyContent "OpenAI兼容API未返回任何图像编辑提示词。")
    else builderCatch "OpenAI兼容API返回了无效的图像编辑提示词格式。"
      "解析OpenAI兼容API返回的图像编辑提示词时失败。" (promptTryBlock content)

inductive InspirationStrength where
  | low | medium | high | veryHigh

def generateStyleInspirationPrompt (cfg : Config) (newPrompt : String)
    (strength : InspirationStrength) (net : ChatOutcome) : Except ApiError String :=
  match callOpenAIChat cfg net with
  | Except.error e => Except.error e
  | Except.ok completion =>
    let content := extractMessageContent (firstChoiceContent completion)
    if content = "" then Except.error (ApiError.emptyContent "OpenAI兼容API未返回任何风格借鉴提示词。")
    else builderCatch "OpenAI兼容API返回了无效的风格借鉴提示词格式。"
      "解析OpenAI兼容API返回的风格借鉴提示词时失败。" (promptTryBlock content)

def generateInpaintingPrompt (cfg : Config) (prompt : String) (net : ChatOutcome) :
    Except ApiError String :=
  match callOpenAIChat cfg net with
  | Except.error e => Except.error e
  | Except.ok completion =>
    let content := extractMessageContent (firstChoiceContent completion)
    if content = "" then Except.error (ApiError.emptyContent "OpenAI兼容API未返回任何局部重绘提示词。")
    else builderCatch "OpenAI兼容API返回了无效的局部重绘提示词格式。"
      "解析OpenAI兼容API返回的局部重绘提示词时失败。" (promptTryBlock content)

def generateVideoPrompt (cfg : Config) (prompt cameraMovement : String)
    (net : ChatOutcome) : Except ApiError String :=
  match callOpenAIChat cfg net with
  | Except.error e => Except.error e
  | Except.ok completion =>
    let content := extractMessageContent (firstChoiceContent completion)
    if content = "" then Except.error (ApiError.emptyContent "OpenAI兼容API未返回任何视频生成提示词。")
    else builderCatch "OpenAI兼容API返回了无效的视频提示词格式。"
      "解析OpenAI兼容API返回的视频提示词时失败。" (promptTryBlock content)

def generateVideoTransitionPrompt (cfg : Config)
    (nextSceneScript storyContext stylePrompt : String) (net : ChatOutcome) :
    Except ApiError String :=
  match callOpenAIChat cfg net with
  | Except.error e => Except.error e
  | Except.ok completion =>
    let content := extractMessageContent (firstChoiceContent completion)
    if content = "" then Except.error (ApiError.emptyContent "OpenAI兼容API未返回任何转场提示词。")
    else builderCatch "OpenAI兼容API返回了无效的转场提示词格式。"
      "解析OpenAI兼容API返回的转场提示词时失败。" (promptTryBlock content)

/-! ## `generateVideoScriptsForComicStrip` (gemini service file) -/

/-- Depth-one rendering of a JavaScript value inside an array's
`toString`; a nested array of arrays is not rendered further (no parsed
segment in this service ever nests arrays, so the corner is never hit). -/
def jsShallowToString : Json → String
  | Json.null => "null"
  | Json.bool b => cond b "true" "false"
  | Json.num n => toString n
  | Json.str s => s
  | Json.obj _ => "[object Object]"
  | Json.arr _ => ""

/-- JavaScript template-literal stringification of a value;
`Array.prototype.toString` renders elements joined by `","` with `null`
elements as the empty string. -/
def jsToString : Json → String
  | Json.null => "null"
  | Json.bool b => cond b "true" "false"
  | Json.num n => toString n
  | Json.str s => s
  | Json.obj _ => "[object Object]"
  | Json.arr xs =>
    String.intercalate ","
      (xs.map (fun v =>
        match v with
        | Json.null => ""
        | v' => jsShallowToString v'))

/-- `${item.field}` where `item` is an arbitrary parsed segment: an absent
property is `undefined` and renders as the string `undefined`. -/
def jsInterpField (item : Json) (field : String) : String :=
  match jsGet item field with
  | none => "undefined"
  | some v => jsToString v

/-- The per-segment script template in `generateVideoScriptsForComicStrip`. -/
def segmentScript (item : Json) : String :=
  jsInterpField item "cameraMovement" ++ "的" ++ jsInterpField item "shotType" ++ "，" ++
    jsInterpField item "actionDescription" ++ "画面充满" ++
    jsInterpField item "emotionalTone" ++ "的氛围。"

/-- The adjustment branch: `new Array(m).fill('')` then copy the first
`min(scripts.length, m)` scripts. -/
def adjustScripts (scripts : List String) (m : Nat) : List String :=
  (List.range m).map (fun i => scripts.getD i "")

def generateVideoScriptsForComicStrip (cfg : Config) (story : String)
    (images : List GeneratedImage) (net : ChatOutcome) : Except ApiError (List String) :=
  match generateVideoStoryboard cfg story images net with
  | Except.error e => Except.error e
  | Except.ok storyboardSegments =>
    let scripts := storyboardSegments.map segmentScript
    if scripts.length ≠ images.length then Except.ok (adjustScripts scripts images.length)
    else Except.ok scripts

/-! ## Concrete fixtures used by the closed theorems and witnesses -/

/-- A fully populated configuration. -/
def cfgOk : Config := ⟨some "https://api.example.com", some "test-key", some "gpt-4o-mini"⟩

/-- A configuration with every environment variable unset. -/
def cfgEmpty : Config := ⟨none, none, none⟩

/-- A successful HTTP 200 outcome whose first choice carries `content` as a
plain string. -/
def mkNet (content : String) : ChatOutcome :=
  ChatOutcome.http 200 (ErrBody.parsed none)
    ⟨some [⟨some ⟨some (MessageContent.str content)⟩⟩]⟩

/-- Provider content wrapped in a Markdown code fence (spec §4.3 scenario). -/
def fencedContent : String := "```json\n\x7b\"a\":1\x7d\n```"

def twoPanelContent : String := "\x7b\"panels\":[\"a\",\"b\"]\x7d"

def threePanelContent : String := "\x7b\"panels\":[\"a\",\"b\",\"c\"]\x7d"

/-- A `panels` array whose elements are not strings. -/
def mixedPanelContent : String := "\x7b\"panels\":[1,null,\x7b\x7d]\x7d"

def mixedCardContent : String := "\x7b\"cards\":[1,null,\x7b\x7d]\x7d"

/-- A one-element `segments` array (a cardinality mismatch for two images). -/
def oneSegmentContent : String :=
  "\x7b\"segments\":[\x7b\"cameraMovement\":\"推\",\"shotType\":\"近景\",\"actionDescription\":\"走\",\"emotionalTone\":\"暖\"\x7d]\x7d"

def twoImages : List GeneratedImage := [⟨"img1"⟩, ⟨"img2"⟩]

/-- The parsed form of the single segment in `oneSegmentContent`. -/
def seg1 : Json :=
  Json.obj [("cameraMovement", Json.str "推"), ("shotType", Json.str "近景"),
    ("actionDescription", Json.str "走"), ("emotionalTone", Json.str "暖")]

/-- A response with one choice. -/
def respOneChoice : ChatCompletionResponse :=
  ⟨some [⟨some ⟨some (MessageContent.str threePanelContent)⟩⟩]⟩

/-- A response with the same first choice and an extra second choice. -/
def respTwoChoices : ChatCompletionResponse :=
  ⟨some [⟨some ⟨some (MessageContent.str threePanelContent)⟩⟩, ⟨none⟩]⟩

/-- The post-call pipeline shared by every builder: call, extract, check
emptiness, try/catch.  Each builder is definitionally an instance of this
(established by the `*_eq_pipeline` lemmas below), which lets the generic
lemmas be proved once. -/
def runPipeline {α : Type} (emptyMsg invalidMsg failMsg : String)
    (tryB : String → Except String α) (cfg : Config) (net : ChatOutcome) :
    Except ApiError α :=
  match callOpenAIChat cfg net with
  | Except.error e => Except.error e
  | Except.ok completion =>
    if extractMessageContent (firstChoiceContent completion) = "" then
      Except.error (ApiError.emptyContent emptyMsg)
    else builderCatch invalidMsg failMsg
      (tryB (extractMessageContent (firstChoiceContent completion)))

/-! ## Helper lemmas -/

theorem comic_eq_pipeline (cfg : Config) (story sp : String) (n : Nat) (net : ChatOutcome) :
    generateComicPanelPrompts cfg story sp n net
      = runPipeline "OpenAI兼容API未返回任何连环画分镜描述。"
          "OpenAI兼容API返回了无效的连环画分镜格式。"
          "解析OpenAI兼容API返回的连环画分镜时失败。"
          (fun content => comicTryBlock content n) cfg net := rfl

theorem storyboard_eq_pipeline (cfg : Config) (story : String)
    (images : List GeneratedImage) (net : ChatOutcome) :
    generateVideoStoryboard cfg story images net
      = (if images.length = 0 then Except.ok []
         else runPipeline "OpenAI兼容API未返回任何镜头脚本。"
           "OpenAI兼容API返回了无效的镜头脚本格式。"
           "解析OpenAI兼容API返回的镜头脚本时失败。"
           (fun content => storyboardTryBlock content images.length) cfg net) := rfl

theorem wiki_eq_pipeline (cfg : Config) (topic sp : String) (n : Nat) (net : ChatOutcome) :
    generateWikiCardPrompts cfg topic sp n net
      = runPipeline "OpenAI兼容API未返回任何图解卡片描述。"
          "OpenAI兼容API返回了无效的图解卡片格式。"
          "解析OpenAI兼容API返回的图解卡片时失败。"
          (fun content => wikiTryBlock content n) cfg net := rfl

theorem textToImage_eq_pipeline (cfg : Config) (bp : String) (kw : List String)
    (ar : String) (n : Nat) (np : Option String) (net : ChatOutcome) :
    generateTextToImagePrompt cfg bp kw ar n np net
      = runPipeline "OpenAI兼容API未返回任何文生图提示词。"
          "OpenAI兼容API返回了无效的文生图提示词格式。"
          "解析OpenAI兼容API返回的文生图提示词时失败。"
          textToImageTryBlock cfg net := rfl

theorem imageEdit_eq_pipeline (cfg : Config) (p : String) (net : ChatOutcome) :
    generateImageEditPrompt cfg p net
      = runPipeline "OpenAI兼容API未返回任何图像编辑提示词。"
          "OpenAI兼容API返回了无效的图像编辑提示词格式。"
          "解析OpenAI兼容API返回的图像编辑提示词时失败。"
          promptTryBlock cfg net := rfl

theorem styleInspiration_eq_pipeline (cfg : Config) (p : String)
    (st : InspirationStrength) (net : ChatOutcome) :
    generateStyleInspirationPrompt cfg p st net
      = runPipeline "OpenAI兼容API未返回任何风格借鉴提示词。"
          "OpenAI兼容API返回了无效的风格借鉴提示词格式。"
          "解析OpenAI兼容API返回的风格借鉴提示词时失败。"
          promptTryBlock cfg net := rfl

theorem inpainting_eq_pipeline (cfg : Config) (p : String) (net : ChatOutcome) :
    generateInpaintingPrompt cfg p net
      = runPipeline "OpenAI兼容API未返回任何局部重绘提示词。"
          "OpenAI兼容API返回了无效的局部重绘提示词格式。"
          "解析OpenAI兼容API返回的局部重绘提示词时失败。"
          promptTryBlock cfg net := rfl

theorem videoPrompt_eq_pipeline (cfg : Config) (p cm : String) (net : ChatOutcome) :
    generateVideoPrompt cfg p cm net
      = runPipeline "OpenAI兼容API未返回任何视频生成提示词。"
          "OpenAI兼容API返回了无效的视频提示词格式。"
          "解析OpenAI兼容API返回的视频提示词时失败。"
          promptTryBlock cfg net := rfl

theorem transition_eq_pipeline (cfg : Config) (ns sc sp : String) (net : ChatOutcome) :
    generateVideoTransitionPrompt cfg ns sc sp net
      = runPipeline "OpenAI兼容API未返回任何转场提示词。"
          "OpenAI兼容API返回了无效的转场提示词格式。"
          "解析OpenAI兼容API返回的转场提示词时失败。"
          promptTryBlock cfg net := rfl

theorem str_empty_append (s : String) : "" ++ s = s := by
  cases s
  rfl

theorem append_ne_invalid (s t : String) (hs : 7 < s.length) : s ++ t ≠ "invalid" := by
  intro h
  have hlen := congrArg String.length h
  rw [String.length_append] at hlen
  have h7 : ("invalid" : String).length = 7 := rfl
  omega

theorem callOpenAIChat_config_error (cfg : Config) (e : ApiError)
    (h : ensureOpenAIConfig cfg = Except.error e) (net : ChatOutcome) :
    callOpenAIChat cfg net = Except.error e := by
  unfold callOpenAIChat
  rw [h]

theorem callOpenAIChat_ok (cfg : Config) (h : ensureOpenAIConfig cfg = Except.ok ())
    (s : Nat) (hs : respOk s = true) (b : ErrBody) (r : ChatCompletionResponse) :
    callOpenAIChat cfg (ChatOutcome.http s b r) = Except.ok r := by
  unfold callOpenAIChat
  rw [h]
  simp [hs]

theorem callOpenAIChat_http_err (cfg : Config) (h : ensureOpenAIConfig cfg = Except.ok ())
    (s : Nat) (hs : respOk s = false) (hna : s ≠ 401) (hnb : s ≠ 403) (b : ErrBody)
    (r : ChatCompletionResponse) :
    callOpenAIChat cfg (ChatOutcome.http s b r)
      = Except.error (ApiError.callFailed (httpErrorMessage s b)) := by
  unfold callOpenAIChat
  rw [h]
  simp [hs, hna, hnb]

theorem builderCatch_eq_ok {α : Type} (i f : String) (t : Except String α) (v : α)
    (h : builderCatch i f t = Except.ok v) : t = Except.ok v := by
  cases t with
  | ok w => simpa [builderCatch] using h
  | error m =>
    unfold builderCatch at h
    split at h <;> (try split at h) <;> simp_all

theorem parseJsonTop_nonempty (s : String) (j : Json) (h : parseJsonTop s = some j) :
    s ≠ "" := by
  intro he
  rw [he] at h
  exact Option.noConfusion h

theorem runPipeline_config_error {α : Type} (m1 m2 m3 : String)
    (tryB : String → Except String α) (cfg : Config) (e : ApiError)
    (h : ensureOpenAIConfig cfg = Except.error e) (net : ChatOutcome) :
    runPipeline m1 m2 m3 tryB cfg net = Except.error e := by
  unfold runPipeline
  rw [callOpenAIChat_config_error cfg e h net]

theorem runPipeline_http {α : Type} (m1 m2 m3 : String)
    (tryB : String → Except String α) (cfg : Config)
    (hcfg : ensureOpenAIConfig cfg = Except.ok ()) (s : Nat) (hs : respOk s = true)
    (b : ErrBody) (r : ChatCompletionResponse) :
    runPipeline m1 m2 m3 tryB cfg (ChatOutcome.http s b r)
      = (if extractMessageContent (firstChoiceContent r) = ""
         then Except.error (ApiError.emptyContent m1)
         else builderCatch m2 m3 (tryB (extractMessageContent (firstChoiceContent r)))) := by
  unfold runPipeline
  rw [callOpenAIChat_ok cfg hcfg s hs b r]

theorem chat_http_cases (cfg : Config) (s : Nat) (b : ErrBody)
    (r1 r2 : ChatCompletionResponse) :
    (callOpenAIChat cfg (ChatOutcome.http s b r1) = Except.ok r1 ∧
     callOpenAIChat cfg (ChatOutcome.http s b r2) = Except.ok r2) ∨
    (∃ e, callOpenAIChat cfg (ChatOutcome.http s b r1) = Except.error e ∧
          callOpenAIChat cfg (ChatOutcome.http s b r2) = Except.error e) := by
  unfold callOpenAIChat
  cases ensureOpenAIConfig cfg with
  | error e => exact Or.inr ⟨e, rfl, rfl⟩
  | ok u =>
    cases u
    by_cases hs : respOk s
    · exact Or.inl ⟨by simp [hs], by simp [hs]⟩
    · by_cases h4 : s = 401 ∨ s = 403
      · exact Or.inr ⟨ApiError.authFailed (httpErrorMessage s b),
          by simp [hs, h4], by simp [hs, h4]⟩
      · exact Or.inr ⟨ApiError.callFailed (httpErrorMessage s b),
          by simp [hs, h4], by simp [hs, h4]⟩

theorem runPipeline_congr {α : Type} (m1 m2 m3 : String)
    (tryB : String → Except String α) (cfg : Config) (s : Nat) (b : ErrBody)
    (r1 r2 : ChatCompletionResponse)
    (h : firstChoiceContent r1 = firstChoiceContent r2) :
    runPipeline m1 m2 m3 tryB cfg (ChatOutcome.http s b r1)
      = runPipeline m1 m2 m3 tryB cfg (ChatOutcome.http s b r2) := by
  rcases chat_http_cases cfg s b r1 r2 with ⟨h1, h2⟩ | ⟨e, h1, h2⟩
  · unfold runPipeline
    rw [h1, h2]
    simp only [h]
  · unfold runPipeline
    rw [h1, h2]

theorem runPipeline_chat_error {α : Type} (m1 m2 m3 : String)
    (tryB : String → Except String α) (cfg : Config) (net : ChatOutcome) (e : ApiError)
    (h : callOpenAIChat cfg net = Except.error e) :
    runPipeline m1 m2 m3 tryB cfg net = Except.error e := by
  unfold runPipeline
  rw [h]

theorem mismatch_msg_ne_invalid (pre post : String) (hpre : 7 < pre.length) (n : Nat) :
    pre ++ toString n ++ post ≠ "invalid" := by
  apply append_ne_invalid
  rw [String.length_append]
  omega

theorem comicTryBlock_eq_ok (content : String) (n : Nat) (parsed : Json) (xs : List Json)
    (hp : parseJsonTop content = some parsed)
    (hx : jsGet parsed "panels" = some (Json.arr xs)) (hl : xs.length = n) :
    comicTryBlock content n = Except.ok xs := by
  unfold comicTryBlock
  simp only [hp, hx]
  simp [hl]

theorem wikiTryBlock_eq_ok (content : String) (n : Nat) (parsed : Json) (xs : List Json)
    (hp : parseJsonTop content = some parsed)
    (hx : jsGet parsed "cards" = some (Json.arr xs)) (hl : xs.length = n) :
    wikiTryBlock content n = Except.ok xs := by
  unfold wikiTryBlock
  simp only [hp, hx]
  simp [hl]

theorem storyboardTryBlock_mismatch (content : String) (n : Nat) (parsed : Json)
    (xs : List Json) (hp : parseJsonTop content = some parsed)
    (hx : jsGet parsed "segments" = some (Json.arr xs)) (hl : xs.length ≠ n) :
    storyboardTryBlock content n
      = Except.error ("OpenAI兼容API返回的镜头脚本数量与预期不符（期望" ++ toString n ++ "个）。") := by
  unfold storyboardTryBlock
  simp only [hp, hx]
  simp [hl]

theorem storyboardTryBlock_ok_length (content : String) (n : Nat) (segs : List Json)
    (h : storyboardTryBlock content n = Except.ok segs) : segs.length = n := by
  unfold storyboardTryBlock at h
  split at h
  · exact Except.noConfusion h
  · split at h
    · split at h
      · exact Except.noConfusion h
      · rename_i hcond
        cases h
        omega
    · exact Except.noConfusion h

theorem generateVideoStoryboard_ok_length (cfg : Config) (story : String)
    (images : List GeneratedImage) (net : ChatOutcome) (segs : List Json)
    (h : generateVideoStoryboard cfg story images net = Except.ok segs) :
    segs.length = images.length := by
  rw [storyboard_eq_pipeline] at h
  split at h
  · rename_i h0
    cases h
    simpa using h0.symm
  · unfold runPipeline at h
    split at h
    · exact Except.noConfusion h
    · split at h
      · exact Except.noConfusion h
      · exact storyboardTryBlock_ok_length _ _ _ (builderCatch_eq_ok _ _ _ _ h)

theorem concatAll_filter_map (ps : List ChatMessageContentPart) :
    concatAll (ps.map (fun p => if isTextPart p then p.text.getD "" else ""))
      = concatAll ((ps.filter isTextPart).map (fun p => p.text.getD "")) := by
  induction ps with
  | nil => rfl
  | cons p rest ih =>
    by_cases hp : isTextPart p
    · simp [concatAll, List.filter_cons, hp, ih]
    · simp [concatAll, List.filter_cons, hp, ih, str_empty_append]

/-! ## Claim theorems -/

/-- Claim C9: `generateVideoStoryboard` called with an empty images list
returns the empty list immediately, for every configuration (including one
with no endpoint URL or API key, so no configuration check fails) and for
every network oracle (so no network call is consulted). -/
theorem storyboard_empty_images_short_circuit (cfg : Config) (story : String)
    (net : ChatOutcome) : generateVideoStoryboard cfg story [] net = Except.ok [] := rfl

/-- Claim C5: `extractMessageContent` maps an absent content to `""`, a plain
string to its trimmed copy, and a part sequence to the trimmed, in-order
concatenation of the `text` fields of exactly the parts tagged `"text"` or
`"input_text"`. -/
theorem extractMessageContent_spec :
    extractMessageContent none = "" ∧
    (∀ s : String, extractMessageContent (some (MessageContent.str s)) = jsTrim s) ∧
    (∀ ps : List ChatMessageContentPart,
      extractMessageContent (some (MessageContent.parts ps))
        = jsTrim (concatAll ((ps.filter isTextPart).map (fun p => p.text.getD "")))) := by
  refine ⟨rfl, fun s => rfl, fun ps => ?_⟩
  show jsTrim (concatAll (ps.map (fun p => if isTextPart p then p.text.getD "" else "")))
    = jsTrim (concatAll ((ps.filter isTextPart).map (fun p => p.text.getD "")))
  exact congrArg jsTrim (concatAll_filter_map ps)

/-- Claim C4: an HTTP 401 (or 403) response whose error envelope parses to
the message `"bad key"` fails with the authentication variant carrying
exactly `"bad key"` (the surfaced JavaScript `Error` prefixes it with the
authentication marker); any other non-success status fails with the generic
call-failed variant carrying the extracted message. -/
theorem http_error_translation :
    (∀ cfg : Config, ensureOpenAIConfig cfg = Except.ok () →
      ∀ r : ChatCompletionResponse,
        callOpenAIChat cfg (ChatOutcome.http 401 (ErrBody.parsed (some "bad key")) r)
          = Except.error (ApiError.authFailed "bad key")) ∧
    (∀ cfg : Config, ensureOpenAIConfig cfg = Except.ok () →
      ∀ r : ChatCompletionResponse,
        callOpenAIChat cfg (ChatOutcome.http 403 (ErrBody.parsed (some "bad key")) r)
          = Except.error (ApiError.authFailed "bad key")) ∧
    (ApiError.authFailed "bad key").message = "OpenAI兼容API鉴权失败：bad key" ∧
    (∀ cfg : Config, ensureOpenAIConfig cfg = Except.ok () →
      ∀ (s : Nat) (b : ErrBody) (r : ChatCompletionResponse),
        respOk s = false → s ≠ 401 → s ≠ 403 →
        callOpenAIChat cfg (ChatOutcome.http s b r)
          = Except.error (ApiError.callFailed (httpErrorMessage s b))) ∧
    (∀ (story sp : String) (n : Nat) (r : ChatCompletionResponse),
      generateComicPanelPrompts cfgOk story sp n
          (ChatOutcome.http 401 (ErrBody.parsed (some "bad key")) r)
        = Except.error (ApiError.authFailed "bad key")) := by
  refine ⟨?_, ?_, rfl, ?_, ?_⟩
  · intro cfg h r
    unfold callOpenAIChat
    rw [h]
    rfl
  · intro cfg h r
    unfold callOpenAIChat
    rw [h]
    rfl
  · intro cfg h s b r hs h1 h3
    exact callOpenAIChat_http_err cfg h s hs h1 h3 b r
  · intro story sp n r
    rw [comic_eq_pipeline]
    exact runPipeline_chat_error _ _ _ _ _ _ _ rfl

/-- Witness for C4 at concrete inputs: a 401 with envelope message
`"bad key"`, and a 500 with envelope message `"boom"`. -/
theorem http_error_translation_witness :
    callOpenAIChat cfgOk (ChatOutcome.http 401 (ErrBody.parsed (some "bad key")) ⟨none⟩)
      = Except.error (ApiError.authFailed "bad key") ∧
    callOpenAIChat cfgOk (ChatOutcome.http 500 (ErrBody.parsed (some "boom")) ⟨none⟩)
      = Except.error (ApiError.callFailed "boom") :=
  ⟨http_error_translation.1 cfgOk rfl ⟨none⟩,
   http_error_translation.2.2.2.1 cfgOk rfl 500 (ErrBody.parsed (some "boom")) ⟨none⟩
     rfl (by decide) (by decide)⟩

/-- Claim C1 (code-bug evidence): on a two-element `panels` array with
`numberOfImages = 3`, the builder's try-block throws the specific
cardinality message mentioning `3`, but the builder's own catch block
swallows it (it is not the `'invalid'` sentinel) and surfaces the generic
parse-failure message, which does not contain the character `3`; the
three-element array is returned unchanged. -/
theorem comic_cardinality_message_swallowed :
    generateComicPanelPrompts cfgOk "story" "style" 3 (mkNet twoPanelContent)
      = Except.error (ApiError.parseFailed "解析OpenAI兼容API返回的连环画分镜时失败。") ∧
    ('3' ∉ "解析OpenAI兼容API返回的连环画分镜时失败。".data) ∧
    comicTryBlock twoPanelContent 3
      = Except.error ("OpenAI兼容API返回的分镜数量与预期不符（期望" ++ toString 3 ++ "个）。") ∧
    ('3' ∈ ("OpenAI兼容API返回的分镜数量与预期不符（期望" ++ toString 3 ++ "个）。").data) ∧
    generateComicPanelPrompts cfgOk "story" "style" 3 (mkNet threePanelContent)
      = Except.ok [Json.str "a", Json.str "b", Json.str "c"] :=
  ⟨rfl, by decide, rfl, by decide, rfl⟩

/-- Claim C10: the array builders validate only that the field is an array
of the expected length, not its element types — any parsed object whose
`panels` (resp. `cards`) field is an array of the expected length is
returned as-is. -/
theorem array_builders_skip_element_typing :
    (∀ (cfg : Config) (story sp : String) (n : Nat) (s : Nat) (b : ErrBody)
        (r : ChatCompletionResponse) (parsed : Json) (xs : List Json),
      ensureOpenAIConfig cfg = Except.ok () → respOk s = true →
      parseJsonTop (extractMessageContent (firstChoiceContent r)) = some parsed →
      jsGet parsed "panels" = some (Json.arr xs) → xs.length = n →
      generateComicPanelPrompts cfg story sp n (ChatOutcome.http s b r) = Except.ok xs) ∧
    (∀ (cfg : Config) (topic sp : String) (n : Nat) (s : Nat) (b : ErrBody)
        (r : ChatCompletionResponse) (parsed : Json) (xs : List Json),
      ensureOpenAIConfig cfg = Except.ok () → respOk s = true →
      parseJsonTop (extractMessageContent (firstChoiceContent r)) = some parsed →
      jsGet parsed "cards" = some (Json.arr xs) → xs.length = n →
      generateWikiCardPrompts cfg topic sp n (ChatOutcome.http s b r) = Except.ok xs) := by
  constructor
  · intro cfg story sp n s b r parsed xs hcfg hs hp hx hl
    rw [comic_eq_pipeline, runPipeline_http _ _ _ _ cfg hcfg s hs b r,
      if_neg (parseJsonTop_nonempty _ parsed hp),
      comicTryBlock_eq_ok _ n parsed xs hp hx hl]
    rfl
  · intro cfg topic sp n s b r parsed xs hcfg hs hp hx hl
    rw [wiki_eq_pipeline, runPipeline_http _ _ _ _ cfg hcfg s hs b r,
      if_neg (parseJsonTop_nonempty _ parsed hp),
      wikiTryBlock_eq_ok _ n parsed xs hp hx hl]
    rfl

/-- Witness for C10: a `panels` array containing a number, a null and a
nested object is returned unchanged by `generateComicPanelPrompts`. -/
theorem array_builders_skip_element_typing_witness :
    generateComicPanelPrompts cfgOk "story" "style" 3 (mkNet mixedPanelContent)
      = Except.ok [Json.num 1, Json.null, Json.obj []] :=
  array_builders_skip_element_typing.1 cfgOk "story" "style" 3 200 (ErrBody.parsed none)
    ⟨some [⟨some ⟨some (MessageContent.str mixedPanelContent)⟩⟩]⟩
    (Json.obj [("panels", Json.arr [Json.num 1, Json.null, Json.obj []])])
    [Json.num 1, Json.null, Json.obj []] rfl rfl rfl rfl rfl

theorem builderCatch_error {α : Type} (i f m : String) (h : m ≠ "invalid") :
    builderCatch (α := α) i f (Except.error m) = Except.error (ApiError.parseFailed f) := by
  simp only [builderCatch]
  rw [if_neg h]

/-- Counterexample to claim C2 as stated: with two images and a parsed
one-segment response, the storyboard pipeline does fail (with the generic
parse-failure error) instead of returning a length-adjusted result. -/
theorem storyboard_mismatch_pipeline_fails_cex :
    generateVideoScriptsForComicStrip cfgOk "story" twoImages (mkNet oneSegmentContent)
      = Except.error (ApiError.parseFailed "解析OpenAI兼容API返回的镜头脚本时失败。") := rfl

/-- Claim C2 (amended): on a parsed segment-count mismatch the storyboard
builder hard-fails exactly like its sibling builders, surfacing the generic
parse-failure message; consequently `generateVideoStoryboard` only ever
succeeds with exactly `images.length` segments, and the pad/truncate
adjustment branch in `generateVideoScriptsForComicStrip` is unreachable —
the wrapper is the storyboard result mapped through the script template. -/
theorem storyboard_mismatch_behavior :
    (∀ (cfg : Config) (story : String) (images : List GeneratedImage)
        (net : ChatOutcome) (segs : List Json),
      generateVideoStoryboard cfg story images net = Except.ok segs →
      segs.length = images.length) ∧
    (∀ (cfg : Config) (story : String) (images : List GeneratedImage)
        (net : ChatOutcome),
      generateVideoScriptsForComicStrip cfg story images net
        = Except.map (fun segs => segs.map segmentScript)
            (generateVideoStoryboard cfg story images net)) ∧
    (∀ (cfg : Config) (story : String) (images : List GeneratedImage)
        (s : Nat) (b : ErrBody) (r : ChatCompletionResponse) (parsed : Json)
        (xs : List Json),
      ensureOpenAIConfig cfg = Except.ok () → respOk s = true → images ≠ [] →
      parseJsonTop (extractMessageContent (firstChoiceContent r)) = some parsed →
      jsGet parsed "segments" = some (Json.arr xs) → xs.length ≠ images.length →
      generateVideoStoryboard cfg story images (ChatOutcome.http s b r)
        = Except.error (ApiError.parseFailed "解析OpenAI兼容API返回的镜头脚本时失败。")) := by
  refine ⟨generateVideoStoryboard_ok_length, ?_, ?_⟩
  · intro cfg story images net
    unfold generateVideoScriptsForComicStrip
    cases hsb : generateVideoStoryboard cfg story images net with
    | error e => rfl
    | ok segs =>
      have hlen : (segs.map segmentScript).length = images.length := by
        simpa using generateVideoStoryboard_ok_length cfg story images net segs hsb
      show (if (List.map segmentScript segs).length ≠ images.length
            then Except.ok (adjustScripts (List.map segmentScript segs) images.length)
            else Except.ok (List.map segmentScript segs))
          = Except.map (fun segs => List.map segmentScript segs) (Except.ok segs)
      rw [if_neg (show ¬(List.map segmentScript segs).length ≠ images.length by simp [hlen])]
      rfl
  · intro cfg story images s b r parsed xs hcfg hs himg hp hx hl
    have himgs : ¬images.length = 0 := by
      simpa [List.length_eq_zero] using himg
    rw [storyboard_eq_pipeline, if_neg himgs,
      runPipeline_http _ _ _ _ cfg hcfg s hs b r,
      if_neg (parseJsonTop_nonempty _ parsed hp)]
    rw [storyboardTryBlock_mismatch _ _ parsed xs hp hx hl]
    exact builderCatch_error _ _ _
      (mismatch_msg_ne_invalid "OpenAI兼容API返回的镜头脚本数量与预期不符（期望" "个）。"
        (by decide) images.length)

/-- Witness for C2's amended theorem: the mismatch branch at the concrete
two-image, one-segment input. -/
theorem storyboard_mismatch_behavior_witness :
    generateVideoStoryboard cfgOk "story" twoImages (mkNet oneSegmentContent)
      = Except.error (ApiError.parseFailed "解析OpenAI兼容API返回的镜头脚本时失败。") :=
  storyboard_mismatch_behavior.2.2 cfgOk "story" twoImages 200 (ErrBody.parsed none)
    ⟨some [⟨some ⟨some (MessageContent.str oneSegmentContent)⟩⟩]⟩
    (Json.obj [("segments", Json.arr [seg1])]) [seg1]
    rfl rfl (fun h => List.noConfusion h) rfl rfl (by decide)

/-- Counterexample to claim C3 as stated: fenced provider content is not
reduced to the inner JSON — the comic builder fails with the parse-failure
error instead of parsing successfully. -/
theorem fenced_content_not_sanitized_cex :
    generateComicPanelPrompts cfgOk "story" "style" 1 (mkNet fencedContent)
      = Except.error (ApiError.parseFailed "解析OpenAI兼容API返回的连环画分镜时失败。") := rfl

/-- Claim C3 (amended): no code-fence sanitization exists anywhere in the
service.  Extraction only trims (the fenced content passes through
unchanged), a string whose first non-whitespace character is a backtick is
rejected by `JSON.parse`, and consequently the fenced scenario content makes
every one of the nine builders fail with its parse-failure `FormatError`. -/
theorem no_fence_sanitization :
    (∀ s : String, (∃ tl, s.data.dropWhile isJsWs = '\u0060' :: tl) →
      parseJsonTop s = none) ∧
    extractMessageContent (some (MessageContent.str fencedContent)) = fencedContent ∧
    generateComicPanelPrompts cfgOk "story" "style" 1 (mkNet fencedContent)
      = Except.error (ApiError.parseFailed "解析OpenAI兼容API返回的连环画分镜时失败。") ∧
    generateVideoStoryboard cfgOk "story" twoImages (mkNet fencedContent)
      = Except.error (ApiError.parseFailed "解析OpenAI兼容API返回的镜头脚本时失败。") ∧
    generateWikiCardPrompts cfgOk "topic" "style" 4 (mkNet fencedContent)
      = Except.error (ApiError.parseFailed "解析OpenAI兼容API返回的图解卡片时失败。") ∧
    generateTextToImagePrompt cfgOk "p" [] "1:1" 1 none (mkNet fencedContent)
      = Except.error (ApiError.parseFailed "解析OpenAI兼容API返回的文生图提示词时失败。") ∧
    generateImageEditPrompt cfgOk "p" (mkNet fencedContent)
      = Except.error (ApiError.parseFailed "解析OpenAI兼容API返回的图像编辑提示词时失败。") ∧
    generateStyleInspirationPrompt cfgOk "p" InspirationStrength.low (mkNet fencedContent)
      = Except.error (ApiError.parseFailed "解析OpenAI兼容API返回的风格借鉴提示词时失败。") ∧
    generateInpaintingPrompt cfgOk "p" (mkNet fencedContent)
      = Except.error (ApiError.parseFailed "解析OpenAI兼容API返回的局部重绘提示词时失败。") ∧
    generateVideoPrompt cfgOk "p" "subtle" (mkNet fencedContent)
      = Except.error (ApiError.parseFailed "解析OpenAI兼容API返回的视频提示词时失败。") ∧
    generateVideoTransitionPrompt cfgOk "next" "ctx" "style" (mkNet fencedContent)
      = Except.error (ApiError.parseFailed "解析OpenAI兼容API返回的转场提示词时失败。") := by
  refine ⟨?_, rfl, rfl, rfl, rfl, rfl, rfl, rfl, rfl, rfl, rfl⟩
  intro s h
  obtain ⟨tl, htl⟩ := h
  have hsk : skipWs s.data = '\u0060' :: tl := htl
  unfold parseJsonTop parseValue
  rw [show 2 * s.length + 2 = (2 * s.length + 1) + 1 from rfl]
  simp only [parseCore, hsk]
  simp +decide [isDigitChar]

/-- Witness for C3's amended theorem: the fenced scenario content is
rejected by the parse stage. -/
theorem no_fence_sanitization_witness : parseJsonTop fencedContent = none :=
  no_fence_sanitization.1 fencedContent
    ⟨"``json\n\x7b\"a\":1\x7d\n```".data, rfl⟩

/-- Counterexample to claim C6 as stated: with the base URL (and everything
else) absent from configuration, one builder call still succeeds —
`generateVideoStoryboard` with an empty images list returns `[]` instead of
failing with a `ConfigurationError`. -/
theorem config_missing_not_universal_cex :
    openaiBaseUrl cfgEmpty = "" ∧
    generateVideoStoryboard cfgEmpty "story" [] (mkNet "x") = Except.ok [] := ⟨rfl, rfl⟩

/-- Claim C6 (amended): a missing base URL (or, with the URL present, a
missing API key) makes `ensureOpenAIConfig` fail with a `ConfigurationError`
whose message names the expected environment variable, and that error is
surfaced unchanged by every builder call for every network oracle (so before
any network request) — except `generateVideoStoryboard` with an empty images
list, which returns `[]` without checking configuration.  A missing model
name does not fail: it falls back to `gpt-4o-mini`. -/
theorem config_missing_behavior :
    (∀ cfg : Config, openaiBaseUrl cfg = "" →
      ensureOpenAIConfig cfg = Except.error (ApiError.config baseUrlMissingMsg)) ∧
    (∀ cfg : Config, openaiBaseUrl cfg ≠ "" → openaiApiKey cfg = "" →
      ensureOpenAIConfig cfg = Except.error (ApiError.config apiKeyMissingMsg)) ∧
    (∀ cfg : Config, openaiBaseUrl cfg ≠ "" → openaiApiKey cfg ≠ "" →
      ensureOpenAIConfig cfg = Except.ok ()) ∧
    ("VITE_OPENAI_COMPATIBLE_BASE_URL".data <:+: baseUrlMissingMsg.data) ∧
    ("VITE_OPENAI_COMPATIBLE_API_KEY".data <:+: apiKeyMissingMsg.data) ∧
    (∀ cfg : Config, cfg.textModelRaw = none → openaiTextModel cfg = "gpt-4o-mini") ∧
    (∀ (cfg : Config) (e : ApiError), ensureOpenAIConfig cfg = Except.error e →
      (∀ story sp n net, generateComicPanelPrompts cfg story sp n net = Except.error e) ∧
      (∀ story (images : List GeneratedImage) net, images ≠ [] →
        generateVideoStoryboard cfg story images net = Except.error e) ∧
      (∀ topic sp n net, generateWikiCardPrompts cfg topic sp n net = Except.error e) ∧
      (∀ bp kw ar n np net, generateTextToImagePrompt cfg bp kw ar n np net = Except.error e) ∧
      (∀ p net, generateImageEditPrompt cfg p net = Except.error e) ∧
      (∀ p st net, generateStyleInspirationPrompt cfg p st net = Except.error e) ∧
      (∀ p net, generateInpaintingPrompt cfg p net = Except.error e) ∧
      (∀ p cm net, generateVideoPrompt cfg p cm net = Except.error e) ∧
      (∀ ns sc sp net, generateVideoTransitionPrompt cfg ns sc sp net = Except.error e)) := by
  refine ⟨?_, ?_, ?_, by decide, by decide, ?_, ?_⟩
  · intro cfg h
    unfold ensureOpenAIConfig
    simp [h]
  · intro cfg h1 h2
    unfold ensureOpenAIConfig
    simp [h1, h2]
  · intro cfg h1 h2
    unfold ensureOpenAIConfig
    simp [h1, h2]
  · intro cfg h
    unfold openaiTextModel
    simp [h]
  · intro cfg e he
    refine ⟨?_, ?_, ?_, ?_, ?_, ?_, ?_, ?_, ?_⟩
    · intro story sp n net
      rw [comic_eq_pipeline]
      exact runPipeline_config_error _ _ _ _ cfg e he net
    · intro story images net himg
      have himgs : ¬images.length = 0 := by simpa [List.length_eq_zero] using himg
      rw [storyboard_eq_pipeline, if_neg himgs]
      exact runPipeline_config_error _ _ _ _ cfg e he net
    · intro topic sp n net
      rw [wiki_eq_pipeline]
      exact runPipeline_config_error _ _ _ _ cfg e he net
    · intro bp kw ar n np net
      rw [textToImage_eq_pipeline]
      exact runPipeline_config_error _ _ _ _ cfg e he net
    · intro p net
      rw [imageEdit_eq_pipeline]
      exact runPipeline_config_error _ _ _ _ cfg e he net
    · intro p st net
      rw [styleInspiration_eq_pipeline]
      exact runPipeline_config_error _ _ _ _ cfg e he net
    · intro p net
      rw [inpainting_eq_pipeline]
      exact runPipeline_config_error _ _ _ _ cfg e he net
    · intro p cm net
      rw [videoPrompt_eq_pipeline]
      exact runPipeline_config_error _ _ _ _ cfg e he net
    · intro ns sc sp net
      rw [transition_eq_pipeline]
      exact runPipeline_config_error _ _ _ _ cfg e he net

/-- Witness for C6's amended theorem at the all-absent configuration. -/
theorem config_missing_behavior_witness :
    ensureOpenAIConfig cfgEmpty = Except.error (ApiError.config baseUrlMissingMsg) ∧
    generateComicPanelPrompts cfgEmpty "story" "style" 3 (mkNet "x")
      = Except.error (ApiError.config baseUrlMissingMsg) ∧
    openaiTextModel cfgEmpty = "gpt-4o-mini" :=
  ⟨config_missing_behavior.1 cfgEmpty rfl,
   (config_missing_behavior.2.2.2.2.2.2 cfgEmpty (ApiError.config baseUrlMissingMsg)
     (config_missing_behavior.1 cfgEmpty rfl)).1 "story" "style" 3 (mkNet "x"),
   config_missing_behavior.2.2.2.2.2.1 cfgEmpty rfl⟩

/-- Claim C7: whenever the content extracted from a successful completion is
empty — absent content, an empty string, or a part sequence contributing no
text all extract to `""` — every builder fails with its `EmptyContentError`
naming the task, and no partial result is returned. -/
theorem empty_content_error_all_builders :
    ∀ (cfg : Config) (s : Nat) (b : ErrBody) (r : ChatCompletionResponse),
      ensureOpenAIConfig cfg = Except.ok () → respOk s = true →
      extractMessageContent (firstChoiceContent r) = "" →
      (∀ story sp n, generateComicPanelPrompts cfg story sp n (ChatOutcome.http s b r)
        = Except.error (ApiError.emptyContent "OpenAI兼容API未返回任何连环画分镜描述。")) ∧
      (∀ story (images : List GeneratedImage), images ≠ [] →
        generateVideoStoryboard cfg story images (ChatOutcome.http s b r)
        = Except.error (ApiError.emptyContent "OpenAI兼容API未返回任何镜头脚本。")) ∧
      (∀ topic sp n, generateWikiCardPrompts cfg topic sp n (ChatOutcome.http s b r)
        = Except.error (ApiError.emptyContent "OpenAI兼容API未返回任何图解卡片描述。")) ∧
      (∀ bp kw ar n np, generateTextToImagePrompt cfg bp kw ar n np (ChatOutcome.http s b r)
        = Except.error (ApiError.emptyContent "OpenAI兼容API未返回任何文生图提示词。")) ∧
      (∀ p, generateImageEditPrompt cfg p (ChatOutcome.http s b r)
        = Except.error (ApiError.emptyContent "OpenAI兼容API未返回任何图像编辑提示词。")) ∧
      (∀ p st, generateStyleInspirationPrompt cfg p st (ChatOutcome.http s b r)
        = Except.error (ApiError.emptyContent "OpenAI兼容API未返回任何风格借鉴提示词。")) ∧
      (∀ p, generateInpaintingPrompt cfg p (ChatOutcome.http s b r)
        = Except.error (ApiError.emptyContent "OpenAI兼容API未返回任何局部重绘提示词。")) ∧
      (∀ p cm, generateVideoPrompt cfg p cm (ChatOutcome.http s b r)
        = Except.error (ApiError.emptyContent "OpenAI兼容API未返回任何视频生成提示词。")) ∧
      (∀ ns sc sp, generateVideoTransitionPrompt cfg ns sc sp (ChatOutcome.http s b r)
        = Except.error (ApiError.emptyContent "OpenAI兼容API未返回任何转场提示词。")) := by
  intro cfg s b r hcfg hs hemp
  refine ⟨?_, ?_, ?_, ?_, ?_, ?_, ?_, ?_, ?_⟩
  · intro story sp n
    rw [comic_eq_pipeline, runPipeline_http _ _ _ _ cfg hcfg s hs b r, if_pos hemp]
  · intro story images himg
    have himgs : ¬images.length = 0 := by simpa [List.length_eq_zero] using himg
    rw [storyboard_eq_pipeline, if_neg himgs,
      runPipeline_http _ _ _ _ cfg hcfg s hs b r, if_pos hemp]
  · intro topic sp n
    rw [wiki_eq_pipeline, runPipeline_http _ _ _ _ cfg hcfg s hs b r, if_pos hemp]
  · intro bp kw ar n np
    rw [textToImage_eq_pipeline, runPipeline_http _ _ _ _ cfg hcfg s hs b r, if_pos hemp]
  · intro p
    rw [imageEdit_eq_pipeline, runPipeline_http _ _ _ _ cfg hcfg s hs b r, if_pos hemp]
  · intro p st
    rw [styleInspiration_eq_pipeline, runPipeline_http _ _ _ _ cfg hcfg s hs b r, if_pos hemp]
  · intro p
    rw [inpainting_eq_pipeline, runPipeline_http _ _ _ _ cfg hcfg s hs b r, if_pos hemp]
  · intro p cm
    rw [videoPrompt_eq_pipeline, runPipeline_http _ _ _ _ cfg hcfg s hs b r, if_pos hemp]
  · intro ns sc sp
    rw [transition_eq_pipeline, runPipeline_http _ _ _ _ cfg hcfg s hs b r, if_pos hemp]

/-- Witness for C7: a response with no choices extracts to `""` and the
comic builder fails with its empty-content error. -/
theorem empty_content_error_all_builders_witness :
    generateComicPanelPrompts cfgOk "story" "style" 3
        (ChatOutcome.http 200 (ErrBody.parsed none) ⟨none⟩)
      = Except.error (ApiError.emptyContent "OpenAI兼容API未返回任何连环画分镜描述。") :=
  (empty_content_error_all_builders cfgOk 200 (ErrBody.parsed none) ⟨none⟩
    rfl rfl rfl).1 "story" "style" 3

/-- Claim C8: builder results depend on a successful completion body only
through `choices[0].message.content` — two responses with the same first
choice content (regardless of further choices) give identical outcomes for
every builder, for any status and error body. -/
theorem result_depends_only_on_first_choice :
    ∀ (cfg : Config) (s : Nat) (b : ErrBody) (r1 r2 : ChatCompletionResponse),
      firstChoiceContent r1 = firstChoiceContent r2 →
      (∀ story sp n, generateComicPanelPrompts cfg story sp n (ChatOutcome.http s b r1)
        = generateComicPanelPrompts cfg story sp n (ChatOutcome.http s b r2)) ∧
      (∀ story images, generateVideoStoryboard cfg story images (ChatOutcome.http s b r1)
        = generateVideoStoryboard cfg story images (ChatOutcome.http s b r2)) ∧
      (∀ topic sp n, generateWikiCardPrompts cfg topic sp n (ChatOutcome.http s b r1)
        = generateWikiCardPrompts cfg topic sp n (ChatOutcome.http s b r2)) ∧
      (∀ bp kw ar n np, generateTextToImagePrompt cfg bp kw ar n np (ChatOutcome.http s b r1)
        = generateTextToImagePrompt cfg bp kw ar n np (ChatOutcome.http s b r2)) ∧
      (∀ p, generateImageEditPrompt cfg p (ChatOutcome.http s b r1)
        = generateImageEditPrompt cfg p (ChatOutcome.http s b r2)) ∧
      (∀ p st, generateStyleInspirationPrompt cfg p st (ChatOutcome.http s b r1)
        = generateStyleInspirationPrompt cfg p st (ChatOutcome.http s b r2)) ∧
      (∀ p, generateInpaintingPrompt cfg p (ChatOutcome.http s b r1)
        = generateInpaintingPrompt cfg p (ChatOutcome.http s b r2)) ∧
      (∀ p cm, generateVideoPrompt cfg p cm (ChatOutcome.http s b r1)
        = generateVideoPrompt cfg p cm (ChatOutcome.http s b r2)) ∧
      (∀ ns sc sp, generateVideoTransitionPrompt cfg ns sc sp (ChatOutcome.http s b r1)
        = generateVideoTransitionPrompt cfg ns sc sp (ChatOutcome.http s b r2)) := by
  intro cfg s b r1 r2 h
  refine ⟨?_, ?_, ?_, ?_, ?_, ?_, ?_, ?_, ?_⟩
  · intro story sp n
    rw [comic_eq_pipeline, comic_eq_pipeline]
    exact runPipeline_congr _ _ _ _ cfg s b r1 r2 h
  · intro story images
    rw [storyboard_eq_pipeline, storyboard_eq_pipeline]
    by_cases h0 : images.length = 0
    · rw [if_pos h0, if_pos h0]
    · rw [if_neg h0, if_neg h0]
      exact runPipeline_congr _ _ _ _ cfg s b r1 r2 h
  · intro topic sp n
    rw [wiki_eq_pipeline, wiki_eq_pipeline]
    exact runPipeline_congr _ _ _ _ cfg s b r1 r2 h
  · intro bp kw ar n np
    rw [textToImage_eq_pipeline, textToImage_eq_pipeline]
    exact runPipeline_congr _ _ _ _ cfg s b r1 r2 h
  · intro p
    rw [imageEdit_eq_pipeline, imageEdit_eq_pipeline]
    exact runPipeline_congr _ _ _ _ cfg s b r1 r2 h
  · intro p st
    rw [styleInspiration_eq_pipeline, styleInspiration_eq_pipeline]
    exact runPipeline_congr _ _ _ _ cfg s b r1 r2 h
  · intro p
    rw [inpainting_eq_pipeline, inpainting_eq_pipeline]
    exact runPipeline_congr _ _ _ _ cfg s b r1 r2 h
  · intro p cm
    rw [videoPrompt_eq_pipeline, videoPrompt_eq_pipeline]
    exact runPipeline_congr _ _ _ _ cfg s b r1 r2 h
  · intro ns sc sp
    rw [transition_eq_pipeline, transition_eq_pipeline]
    exact runPipeline_congr _ _ _ _ cfg s b r1 r2 h

/-- Witness for C8: a one-choice response and a two-choice response with the
same first choice produce the same comic-builder result. -/
theorem result_depends_only_on_first_choice_witness :
    generateComicPanelPrompts cfgOk "story" "style" 3
        (ChatOutcome.http 200 (ErrBody.parsed none) respOneChoice)
      = generateComicPanelPrompts cfgOk "story" "style" 3
        (ChatOutcome.http 200 (ErrBody.parsed none) respTwoChoices) :=
  (result_depends_only_on_first_choice cfgOk 200 (ErrBody.parsed none)
    respOneChoice respTwoChoices rfl).1 "story" "style" 3
